import Mathlib

/-!
Verification of the ClickUp MCP gateway (galvabst/clickupmcp).

Shallow embedding of the parts of the code the claims are about:
- the upstream HTTP adapter `src/clickup/client.ts` (`getToken`, `request`,
  `createSubtask`, `getAllListsInSpace`);
- the MCP tool handlers of `src/mcp/server.ts` (the `toolResultText` /
  `toolResultError` payload shapes and each registered tool's catch block);
- the Express router `src/mcp/router.ts` (stateless Streamable handler's
  catch block, the SSE session store and its `/message` lookup).

Network effects are made explicit: an upstream call is modelled by the
`HttpResponse` the server would answer with, and functions that decide
whether a network call happens return a step datatype whose constructors
record which calls were issued.
-/

namespace ClickupMcp

/-- Substring containment, on the character lists of the strings. -/
def ContainsSub (m sub : String) : Prop :=
  sub.data <:+: m.data

instance (m sub : String) : Decidable (ContainsSub m sub) :=
  List.decidableInfix sub.data m.data

theorem data_append (a b : String) : (a ++ b).data = a.data ++ b.data := rfl

/-- JS `String.prototype.trim()` — strip leading and trailing whitespace. -/
def jsTrim (s : String) : String :=
  String.mk (((s.data.dropWhile Char.isWhitespace).reverse.dropWhile
    Char.isWhitespace).reverse)

/-- JS `String.prototype.toLowerCase()`. -/
def jsToLower (s : String) : String :=
  String.mk (s.data.map Char.toLower)

/-! ## Upstream adapter: src/clickup/client.ts -/

/-- `class ClickUpApiError extends Error` — message, HTTP status code,
optional machine code. -/
structure ClickUpApiError where
  message : String
  statusCode : Nat
  code : Option String
deriving Repr, DecidableEq

/-- `getToken()` — reads `process.env.CLICKUP_TOKEN`, trims it, throws the
code-0 `NO_TOKEN` error when the variable is unset or blank. The environment
variable is the `Option String` argument. -/
def getToken (env : Option String) : Except ClickUpApiError String :=
  match env with
  | none => Except.error ⟨"CLICKUP_TOKEN is not set", 0, some "NO_TOKEN"⟩
  | some s =>
    let t := jsTrim s
    if t = "" then Except.error ⟨"CLICKUP_TOKEN is not set", 0, some "NO_TOKEN"⟩
    else Except.ok t

/-- The upstream HTTP response as the adapter observes it. -/
structure HttpResponse where
  status : Nat
  statusText : String
  body : String
deriving Repr, DecidableEq

/-- `res.ok` — status in the 2xx range. -/
def resOk (r : HttpResponse) : Bool :=
  200 ≤ r.status && r.status ≤ 299

/-- `body.slice(0, 200)` — the first at-most-200 characters of the body. -/
def jsSlice (s : String) (n : Nat) : String :=
  String.mk (s.data.take n)

/-- The error built at client.ts lines 38-45 for a non-2xx response. -/
def requestError (r : HttpResponse) : ClickUpApiError :=
  let base := "ClickUp API error: " ++ toString r.status ++ " " ++ r.statusText
  let message :=
    if r.status = 401 then "ClickUp token invalid or expired"
    else if r.status = 403 then "No access to this resource"
    else if r.status = 429 then "Rate limited; retry later"
    else if r.body ≠ "" then base ++ " - " ++ jsSlice r.body 200
    else base
  ⟨message, r.status, none⟩

instance {ε α : Type} [DecidableEq ε] [DecidableEq α] : DecidableEq (Except ε α) := fun x y =>
  match x, y with
  | Except.ok a, Except.ok b =>
    if h : a = b then isTrue (by rw [h]) else isFalse (fun hc => by cases hc; exact h rfl)
  | Except.error a, Except.error b =>
    if h : a = b then isTrue (by rw [h]) else isFalse (fun hc => by cases hc; exact h rfl)
  | Except.ok _, Except.error _ => isFalse (fun hc => by cases hc)
  | Except.error _, Except.ok _ => isFalse (fun hc => by cases hc)

/-- Outcome of one `request` call: either the token check threw before any
network traffic, or the fetch was issued and produced an outcome. A 2xx
response yields the decoded body (`none` for the empty/204 case, mirroring
`return undefined`; JSON decoding itself is kept abstract as the body text). -/
inductive RequestStep where
  | noCall (e : ClickUpApiError)
  | called (outcome : Except ClickUpApiError (Option String))
deriving Repr, DecidableEq

/-- `request(path, options)` — token check first, then the fetch; non-2xx
responses are translated by `requestError`. -/
def request (env : Option String) (r : HttpResponse) : RequestStep :=
  match getToken env with
  | Except.error e => RequestStep.noCall e
  | Except.ok _ =>
    if resOk r then
      if r.status = 204 || r.body = "" then RequestStep.called (Except.ok none)
      else RequestStep.called (Except.ok (some r.body))
    else RequestStep.called (Except.error (requestError r))

/-- The C2 taxonomy, as one proposition about a given environment and
response. -/
def requestTaxonomy (env : Option String) (r : HttpResponse) : Prop :=
  request env r = RequestStep.called (Except.error (requestError r)) ∧
  (requestError r).statusCode = r.status ∧
  (r.status = 401 → (requestError r).message = "ClickUp token invalid or expired") ∧
  (r.status = 403 → (requestError r).message = "No access to this resource") ∧
  (r.status = 429 → (requestError r).message = "Rate limited; retry later") ∧
  (r.status ≠ 401 → r.status ≠ 403 → r.status ≠ 429 →
    ContainsSub (requestError r).message (toString r.status) ∧
    ContainsSub (requestError r).message r.statusText ∧
    (r.body ≠ "" → ContainsSub (requestError r).message (jsSlice r.body 200)) ∧
    (jsSlice r.body 200).length ≤ 200)

/-! ## Tool result payloads and handler catch blocks: src/mcp/server.ts -/

/-- An MCP tool result: one text content item, plus the `isError` flag
(absent in the source's success shape, which is modelled as `false`). -/
structure ToolResult where
  text : String
  isError : Bool
deriving Repr, DecidableEq

/-- `toolResultText(content)` — success payload. -/
def toolResultText (content : String) : ToolResult :=
  ⟨content, false⟩

/-- `toolResultError(message)` — error-flagged payload with the
human-readable message. -/
def toolResultError (message : String) : ToolResult :=
  ⟨"Error: " ++ message, true⟩

/-- What a tool handler can throw: a `ClickUpApiError` (the `instanceof`
branch) or any other value, carried as its `String(err)` rendering. -/
inductive ThrownError where
  | clickup (e : ClickUpApiError)
  | other (s : String)
deriving Repr, DecidableEq

/-- The catch block shared by the plain handlers: a `ClickUpApiError`
surfaces its message, anything else surfaces `String(err)`. -/
def catchPlain : ThrownError → ToolResult
  | ThrownError.clickup e => toolResultError e.message
  | ThrownError.other s => toolResultError s

/-- The catch block of the lookup handlers that collapse upstream 404 and
400 to a fixed not-found message, e.g. `get_clickup_task`. -/
def catchNotFound (notFoundMsg : String) : ThrownError → ToolResult
  | ThrownError.clickup e =>
    if e.statusCode = 404 || e.statusCode = 400 then toolResultError notFoundMsg
    else toolResultError e.message
  | ThrownError.other s => toolResultError s

/-- A handler run to completion: the try block either returned a success
text or threw, and the catch block translates the thrown value. -/
def runHandler (catchFn : ThrownError → ToolResult) :
    Except ThrownError String → ToolResult
  | Except.ok s => toolResultText s
  | Except.error e => catchFn e

/-- The tools registered by `createMcpServer` (src/mcp/server.ts), each with
the catch block its handler installs. -/
def toolRegistry : List (String × (ThrownError → ToolResult)) :=
  [ ("get_clickup_task", catchNotFound "Task not found or invalid task_id"),
    ("get_clickup_task_context", catchNotFound "Task not found or invalid task_id"),
    ("get_clickup_task_comments", catchPlain),
    ("create_clickup_comment", catchPlain),
    ("update_clickup_comment", catchPlain),
    ("delete_clickup_comment", catchPlain),
    ("get_clickup_subtasks", catchPlain),
    ("create_clickup_task", catchPlain),
    ("create_clickup_subtask", catchPlain),
    ("update_clickup_task", catchPlain),
    ("delete_clickup_task", catchPlain),
    ("get_clickup_tasks", catchPlain),
    ("get_clickup_tasks_by_list_name", catchPlain),
    ("list_clickup_lists_in_space", catchNotFound "Space not found or invalid space_id"),
    ("list_clickup_lists", catchNotFound "Folder not found or invalid folder_id"),
    ("list_clickup_folders", catchNotFound "Space not found or invalid space_id"),
    ("list_clickup_spaces", catchNotFound "Team not found or invalid team_id"),
    ("list_clickup_teams", catchPlain) ]

/-! ## Router: src/mcp/router.ts -/

/-- A JSON-RPC error envelope as written by the router's error paths:
`{ jsonrpc, error: { code, message }, id }`. `id` is the correlation id
(`none` = JSON null). -/
structure RpcErrorEnvelope where
  code : Int
  message : String
  id : Option Nat
deriving Repr, DecidableEq

/-- The catch block of `handleStreamableRequest` (router.ts lines 32-41):
when the wrapped processing throws, the responses written afterwards are
one 500 envelope with code -32603 and `id: null` when no headers were sent
yet, and nothing otherwise. `reqId` is the inbound request's JSON-RPC id;
the source writes `id: null` without consulting it. -/
def handleStreamableFailure (_reqId : Option Nat) (headersSent : Bool) :
    List RpcErrorEnvelope :=
  if headersSent then [] else [⟨-32603, "Internal server error", none⟩]

/-- `sseTransports[transport.sessionId] = transport` at stream open. The
session store is the JS object, modelled as a map from id to transport. -/
def sseOpen {τ : Type} (store : String → Option τ) (sid : String) (t : τ) :
    String → Option τ :=
  fun k => if k = sid then some t else store k

/-- The `res.on('close', ...)` handler of `GET /sse` (router.ts 54-57):
`delete sseTransports[transport.sessionId]`. -/
def onSseClose {τ : Type} (store : String → Option τ) (sid : String) :
    String → Option τ :=
  fun k => if k = sid then none else store k

/-- Outcome of one `POST /message` call: a transport-level fault written in
the POST's own response, or the message forwarded to the found transport's
`handlePostMessage`. -/
inductive MessagePostOutcome (τ : Type) where
  | fault (status : Nat) (code : Int) (message : String)
  | dispatch (t : τ)
deriving Repr

/-- The `POST /message` handler (router.ts 63-75): reads `sessionId` from
the query (`none` = parameter absent; the source's `sessionId ? ... :
undefined` also treats the empty string as absent), looks it up in the
store, and faults with HTTP 400 and code -32000 when no transport is
found. -/
def handleMessagePost {τ : Type} (store : String → Option τ)
    (sessionId : Option String) : MessagePostOutcome τ :=
  let transport : Option τ :=
    match sessionId with
    | none => none
    | some sid => if sid = "" then none else store sid
  match transport with
  | none => MessagePostOutcome.fault 400 (-32000) "No transport found for sessionId"
  | some t => MessagePostOutcome.dispatch t

/-! ## createSubtask: src/clickup/client.ts (robust variant, lines 229-246) -/

/-- `task.list` — the `{ id?, name? }` list reference of a fetched task;
the id is already coerced to a string (`String(rawListId)` accepts both the
string and the number shape). -/
structure TaskListRef where
  id : Option String
deriving Repr, DecidableEq

/-- The part of the parent task `createSubtask` inspects. -/
structure ParentTaskInfo where
  list : Option TaskListRef
deriving Repr, DecidableEq

/-- `parent.list?.id` — optional chaining. -/
def rawListId (p : ParentTaskInfo) : Option String :=
  p.list.bind TaskListRef.id

/-- The observable step at which `createSubtask` stopped. Only
`writeIssued` performs the `createTask` POST. -/
inductive SubtaskStep where
  | invalidInput (e : ClickUpApiError)
  | lookupFailed (e : ClickUpApiError)
  | noListContext (e : ClickUpApiError)
  | writeIssued (listId : String) (name : String) (parent : String)
      (description : Option String)
deriving Repr, DecidableEq

/-- Whether the `createTask` write was issued. -/
def issuesWrite : SubtaskStep → Bool
  | SubtaskStep.writeIssued _ _ _ _ => true
  | _ => false

/-- `createSubtask(parentTaskId, name, description)` — validates both
inputs, then performs `getTask(parentId)` (its outcome is the `lookup`
argument), then requires the parent's list id before issuing the
`createTask` write. -/
def createSubtask (parentTaskId name : String) (description : Option String)
    (lookup : Except ClickUpApiError ParentTaskInfo) : SubtaskStep :=
  let parentId := jsTrim parentTaskId
  if parentId = "" then
    SubtaskStep.invalidInput
      ⟨"parent_task_id is required and must be non-empty", 400, some "INVALID_INPUT"⟩
  else
    let taskName := jsTrim name
    if taskName = "" then
      SubtaskStep.invalidInput
        ⟨"name is required and must be non-empty", 400, some "INVALID_INPUT"⟩
    else
      match lookup with
      | Except.error e => SubtaskStep.lookupFailed e
      | Except.ok parent =>
        match rawListId parent with
        | none =>
          SubtaskStep.noListContext
            ⟨"Parent task has no list context (task_id=" ++ parentId ++
              "). Cannot create subtask.", 400, some "NO_LIST"⟩
        | some lid => SubtaskStep.writeIssued lid taskName parentId description

/-! ## getAllListsInSpace and get_clickup_tasks_by_list_name -/

/-- A ClickUp list as the upstream returns it: id plus optional name. -/
structure ClickUpList where
  id : String
  name : Option String
deriving Repr, DecidableEq

/-- A ClickUp folder header. -/
structure ClickUpFolder where
  id : String
  name : Option String
deriving Repr, DecidableEq

/-- One entry of the `getAllListsInSpace` result. -/
structure ListInSpace where
  list_id : String
  list_name : String
  folder_id : String
  folder_name : String
deriving Repr, DecidableEq

/-- The upstream data of one space: the folderless lists
(`GET /space/{id}/list`) and, per folder (`GET /space/{id}/folder`, in
upstream order), the folder's lists (`GET /folder/{id}/list`). -/
structure SpaceData where
  folderlessLists : List ClickUpList
  folders : List (ClickUpFolder × List ClickUpList)
deriving Repr, DecidableEq

/-- The entries pushed for the folderless lists (folder_id `''`,
folder_name `'(folderless)'`). -/
def folderlessEntries (d : SpaceData) : List ListInSpace :=
  d.folderlessLists.map fun l =>
    ⟨l.id, l.name.getD "(unnamed)", "", "(folderless)"⟩

/-- The entries pushed while walking the folders, in upstream order. -/
def folderEntries (d : SpaceData) : List ListInSpace :=
  d.folders.flatMap fun fl =>
    fl.2.map fun l =>
      ⟨l.id, l.name.getD "(unnamed)", fl.1.id, fl.1.name.getD "(unnamed)"⟩

/-- `getAllListsInSpace(spaceId)` — folderless lists first, then every
folder's lists. -/
def getAllListsInSpace (d : SpaceData) : List ListInSpace :=
  folderlessEntries d ++ folderEntries d

/-- The handler's match predicate:
`(l.list_name ?? '').toLowerCase() === nameLower` (list_name is never null
after `getAllListsInSpace`, so the `?? ''` default is dropped). -/
def listNameMatches (nameLower : String) (l : ListInSpace) : Bool :=
  jsToLower l.list_name == nameLower

/-- `Array.prototype.join(', ')` on the available list names. -/
def joinNames : List String → String
  | [] => ""
  | [n] => n
  | n :: rest@(_ :: _) => n ++ ", " ++ joinNames rest

/-- The observable step at which `get_clickup_tasks_by_list_name` stopped:
a tool-level error result (no `getTasks` call), or the `getTasks` fetch for
the resolved list. -/
inductive ByListNameStep where
  | errorResult (r : ToolResult)
  | fetchTasks (list_id : String) (list_name : String)
deriving Repr, DecidableEq

/-- The `get_clickup_tasks_by_list_name` handler body (src/mcp/server.ts),
after `getAllListsInSpace` returned the entries of `d`: trim + lowercase
the requested name, take the first entry whose lowercased name equals it,
and on a miss return the tool error naming the request and joining all
available names (`'(none)'` when the join is empty). -/
def tasksByListName (d : SpaceData) (listName : String) : ByListNameStep :=
  let lists := getAllListsInSpace d
  let nameLower := jsToLower (jsTrim listName)
  match lists.find? (listNameMatches nameLower) with
  | none =>
    let names := joinNames (lists.map ListInSpace.list_name)
    ByListNameStep.errorResult (toolResultError
      ("List \"" ++ listName ++ "\" not found in space. Available lists: " ++
        (if names = "" then "(none)" else names)))
  | some found => ByListNameStep.fetchTasks found.list_id found.list_name

/-- `a` is the first element of the list satisfying `p` (specification-side
description of `Array.prototype.find`). -/
def isFirstMatch {α : Type} [DecidableEq α] (p : α → Bool) : List α → α → Bool
  | [], _ => false
  | x :: xs, a => if p x then x == a else isFirstMatch p xs a

/-- A concrete space used to exercise the model: one folderless list
"Alpha" and one folder "Findings" holding the list "Beta". -/
def sampleSpace : SpaceData :=
  ⟨[⟨"L1", some "Alpha"⟩], [(⟨"F1", some "Findings"⟩, [⟨"L2", some "Beta"⟩])]⟩

/-! ## Helper lemmas -/

theorem catchPlain_eq (e : ThrownError) :
    ∃ m, catchPlain e = toolResultError m := by
  cases e with
  | clickup e => exact ⟨e.message, rfl⟩
  | other s => exact ⟨s, rfl⟩

theorem catchNotFound_eq (msg : String) (e : ThrownError) :
    ∃ m, catchNotFound msg e = toolResultError m := by
  cases e with
  | clickup e =>
    unfold catchNotFound
    by_cases h : (e.statusCode = 404 || e.statusCode = 400) = true
    · exact ⟨msg, by simp [h]⟩
    · exact ⟨e.message, by simp [h]⟩
  | other s => exact ⟨s, rfl⟩

theorem toolResultError_isError (m : String) :
    (toolResultError m).isError = true := rfl

/-- A string is contained in the message when it sits between two pieces. -/
theorem containsSub_of_parts (pre mid post m : String)
    (h : m = pre ++ mid ++ post) : ContainsSub m mid := by
  subst h
  exact ⟨pre.data, post.data, by simp [data_append, List.append_assoc]⟩

theorem containsSub_refl (s : String) : ContainsSub s s :=
  ⟨[], [], by simp⟩

theorem containsSub_intro (m sub : String) (pre post : List Char)
    (h : m.data = pre ++ sub.data ++ post) : ContainsSub m sub :=
  ⟨pre, post, h.symm⟩

/-- Every registered catch block is one of the two source patterns. -/
theorem registry_catch_shape :
    ∀ entry ∈ toolRegistry,
      entry.2 = catchPlain ∨ ∃ msg, entry.2 = catchNotFound msg := by
  intro entry h
  fin_cases h <;> simp

theorem requestError_statusCode (r : HttpResponse) :
    (requestError r).statusCode = r.status := rfl

theorem requestError_other (r : HttpResponse) (h1 : r.status ≠ 401)
    (h2 : r.status ≠ 403) (h3 : r.status ≠ 429) (hb : r.body ≠ "") :
    (requestError r).message =
      "ClickUp API error: " ++ toString r.status ++ " " ++ r.statusText ++
        " - " ++ jsSlice r.body 200 := by
  simp [requestError, h1, h2, h3, hb]

theorem requestError_other_noBody (r : HttpResponse) (h1 : r.status ≠ 401)
    (h2 : r.status ≠ 403) (h3 : r.status ≠ 429) (hb : r.body = "") :
    (requestError r).message =
      "ClickUp API error: " ++ toString r.status ++ " " ++ r.statusText := by
  simp [requestError, h1, h2, h3, hb]

/-! ## Claim theorems -/

/-- C1: for every registered tool handler and every error thrown during its
execution (a typed `ClickUpApiError` or any other thrown value), the
handler's catch block converts the error into an error-flagged tool result
(`toolResultError`, whose payload carries `isError` and a human-readable
message); the handler run is a total function into tool results, so the
exception never propagates out of the dispatcher. -/
theorem C1_handler_failures_become_tool_error_results :
    ∀ entry ∈ toolRegistry, ∀ (e : ThrownError),
      ∃ m, runHandler entry.2 (Except.error e) = toolResultError m ∧
        (runHandler entry.2 (Except.error e)).isError = true := by
  intro entry hmem e
  rcases registry_catch_shape entry hmem with h | ⟨msg, h⟩
  · rcases catchPlain_eq e with ⟨m, hm⟩
    have hr : runHandler entry.2 (Except.error e) = toolResultError m := by
      rw [h]; exact hm
    exact ⟨m, hr, by rw [hr]; rfl⟩
  · rcases catchNotFound_eq msg e with ⟨m, hm⟩
    have hr : runHandler entry.2 (Except.error e) = toolResultError m := by
      rw [h]; exact hm
    exact ⟨m, hr, by rw [hr]; rfl⟩

theorem C1_witness :
    ∃ m, runHandler (catchNotFound "Task not found or invalid task_id")
        (Except.error (ThrownError.clickup ⟨"boom", 500, none⟩)) = toolResultError m ∧
      (runHandler (catchNotFound "Task not found or invalid task_id")
        (Except.error (ThrownError.clickup ⟨"boom", 500, none⟩))).isError = true :=
  C1_handler_failures_become_tool_error_results
    ("get_clickup_task", catchNotFound "Task not found or invalid task_id")
    (by unfold toolRegistry; exact List.mem_cons_self _ _)
    (ThrownError.clickup ⟨"boom", 500, none⟩)

/-- C2: with a configured token, every non-2xx upstream response makes
`request` throw the typed `ClickUpApiError` built by `requestError`, whose
status code is the response status and whose message is: the fixed
invalid-or-expired-token text for 401, the fixed access-denied text for
403, the fixed rate-limited text for 429, and otherwise a text containing
the status, the reason phrase and the first at-most-200 characters of the
response body. -/
theorem C2_request_error_taxonomy (env : Option String) (t : String)
    (r : HttpResponse) (htok : getToken env = Except.ok t)
    (hko : resOk r = false) : requestTaxonomy env r := by
  unfold requestTaxonomy
  refine ⟨?_, rfl, ?_, ?_, ?_, ?_⟩
  · unfold request
    rw [htok, hko]
    simp
  · intro h; simp [requestError, h]
  · intro h; simp [requestError, h]
  · intro h; simp [requestError, h]
  · intro h1 h2 h3
    have hlen : (jsSlice r.body 200).length ≤ 200 := by
      show (r.body.data.take 200).length ≤ 200
      rw [List.length_take]
      exact min_le_left _ _
    by_cases hb : r.body = ""
    · have hm := requestError_other_noBody r h1 h2 h3 hb
      refine ⟨?_, ?_, fun hcon => absurd hb hcon, hlen⟩
      · refine containsSub_intro _ _ "ClickUp API error: ".data
          (" ".data ++ r.statusText.data) ?_
        rw [hm]
        simp [data_append, List.append_assoc]
      · refine containsSub_intro _ _
          ("ClickUp API error: ".data ++ (toString r.status).data ++ " ".data)
          [] ?_
        rw [hm]
        simp [data_append, List.append_assoc]
    · have hm := requestError_other r h1 h2 h3 hb
      refine ⟨?_, ?_, fun _ => ?_, hlen⟩
      · refine containsSub_intro _ _ "ClickUp API error: ".data
          (" ".data ++ r.statusText.data ++ " - ".data ++
            (jsSlice r.body 200).data) ?_
        rw [hm]
        simp [data_append, List.append_assoc]
      · refine containsSub_intro _ _
          ("ClickUp API error: ".data ++ (toString r.status).data ++ " ".data)
          (" - ".data ++ (jsSlice r.body 200).data) ?_
        rw [hm]
        simp [data_append, List.append_assoc]
      · refine containsSub_intro _ _
          ("ClickUp API error: ".data ++ (toString r.status).data ++ " ".data ++
            r.statusText.data ++ " - ".data) [] ?_
        rw [hm]
        simp [data_append, List.append_assoc]

theorem C2_witness :
    requestTaxonomy (some "tok") ⟨500, "Server Error", "oops"⟩ :=
  C2_request_error_taxonomy (some "tok") "tok" ⟨500, "Server Error", "oops"⟩
    (by decide) (by decide)

/-- C6: when the environment token is absent or blank after trimming, every
`request` call stops at the token check with the distinguished code-0
`NO_TOKEN` error and never issues the network call. -/
theorem C6_missing_token_fails_fast (env : Option String) (r : HttpResponse)
    (h : env = none ∨ ∃ s, env = some s ∧ jsTrim s = "") :
    request env r =
      RequestStep.noCall ⟨"CLICKUP_TOKEN is not set", 0, some "NO_TOKEN"⟩ := by
  rcases h with h | ⟨s, hs, ht⟩
  · subst h; rfl
  · subst hs
    simp [request, getToken, ht]

theorem C6_witness :
    request none ⟨200, "OK", ""⟩ =
      RequestStep.noCall ⟨"CLICKUP_TOKEN is not set", 0, some "NO_TOKEN"⟩ :=
  C6_missing_token_fails_fast none ⟨200, "OK", ""⟩ (Or.inl rfl)

/-- C7: the adapter's outcome — error message included — is identical for
any two configured credentials (the credential value never flows into an
error message or returned payload), and the 401 message is the fixed
invalid-or-expired text, which contains "invalid" and "expired" and does
not depend on the credential. -/
theorem C7_credential_never_in_errors (r : HttpResponse) (t1 t2 : String)
    (h1 : jsTrim t1 ≠ "") (h2 : jsTrim t2 ≠ "") :
    request (some t1) r = request (some t2) r ∧
    (r.status = 401 →
      (requestError r).message = "ClickUp token invalid or expired" ∧
      ContainsSub (requestError r).message "invalid" ∧
      ContainsSub (requestError r).message "expired") := by
  constructor
  · simp [request, getToken, h1, h2]
  · intro h401
    have hm : (requestError r).message = "ClickUp token invalid or expired" := by
      simp [requestError, h401]
    exact ⟨hm, by rw [hm]; decide, by rw [hm]; decide⟩

theorem C7_witness :
    request (some "credA") ⟨401, "Unauthorized", "denied"⟩ =
        request (some "credB") ⟨401, "Unauthorized", "denied"⟩ ∧
      ((⟨401, "Unauthorized", "denied"⟩ : HttpResponse).status = 401 →
        (requestError ⟨401, "Unauthorized", "denied"⟩).message =
            "ClickUp token invalid or expired" ∧
          ContainsSub (requestError ⟨401, "Unauthorized", "denied"⟩).message "invalid" ∧
          ContainsSub (requestError ⟨401, "Unauthorized", "denied"⟩).message "expired") :=
  C7_credential_never_in_errors ⟨401, "Unauthorized", "denied"⟩ "credA" "credB"
    (by decide) (by decide)

/-- C3: a follow-up message whose session identifier is missing or absent
from the session store is answered with the 400 transport-level error
envelope (code -32000, "No transport found for sessionId") in the POST's
own response, and is not dispatched to any transport. -/
theorem C3_unknown_session_faults_without_dispatch {τ : Type}
    (store : String → Option τ) (sid : Option String)
    (h : ∀ s, sid = some s → store s = none) :
    handleMessagePost store sid =
      MessagePostOutcome.fault 400 (-32000) "No transport found for sessionId" := by
  cases sid with
  | none => rfl
  | some s =>
    have hs := h s rfl
    unfold handleMessagePost
    by_cases he : s = ""
    · simp [he]
    · simp [he, hs]

theorem C3_witness :
    handleMessagePost (fun _ => (none : Option Unit)) (some "stale-id") =
      MessagePostOutcome.fault 400 (-32000) "No transport found for sessionId" :=
  C3_unknown_session_faults_without_dispatch (fun _ => none) (some "stale-id")
    (fun _ _ => rfl)

/-- C9: the close handler of one streaming session deletes exactly that
session's key from the session store: afterwards the closed id maps to
nothing, and every other id maps to exactly what it mapped to before. -/
theorem C9_close_removes_only_own_session {τ : Type}
    (store : String → Option τ) (sid : String) :
    onSseClose store sid sid = none ∧
    ∀ k, k ≠ sid → onSseClose store sid k = store k := by
  constructor
  · simp [onSseClose]
  · intro k hk
    simp [onSseClose, hk]

theorem C9_witness :
    onSseClose
        (fun k => if k = "s1" then some 1 else if k = "s2" then some 2
          else (none : Option Nat)) "s1" "s1" = none ∧
      onSseClose
        (fun k => if k = "s1" then some 1 else if k = "s2" then some 2
          else (none : Option Nat)) "s1" "s2" = some 2 :=
  ⟨(C9_close_removes_only_own_session _ "s1").1,
    (C9_close_removes_only_own_session _ "s1").2 "s2" (by decide)⟩

/-- C4 counterexample: a stateless exchange whose request carries id 1 and
that throws before any bytes are written produces one envelope whose id is
null — not the original request's id 1, refuting the claim that the
envelope carries the original request's id. -/
theorem C4_counterexample :
    (handleStreamableFailure (some 1) false).map RpcErrorEnvelope.id = [none] ∧
    ¬ (handleStreamableFailure (some 1) false).map RpcErrorEnvelope.id = [some 1] := by
  exact ⟨rfl, by decide⟩

/-- C4 (amended): a stateless exchange that throws before any response
bytes are written produces exactly one transport-level error envelope, with
code -32603 and id null (the original request's id is not echoed); if bytes
were already flushed, no further response is written. -/
theorem C4_amended_single_error_envelope (reqId : Option Nat) :
    handleStreamableFailure reqId false = [⟨-32603, "Internal server error", none⟩] ∧
    (handleStreamableFailure reqId false).length = 1 ∧
    handleStreamableFailure reqId true = [] :=
  ⟨rfl, rfl, rfl⟩

/-- C5 counterexample: on the single-item lookup `get_clickup_task`, an
upstream 403 surfaces "No access to this resource" while an upstream 404
surfaces "Task not found or invalid task_id" — the two statuses do not
produce the same generic message, refuting the claim. -/
theorem C5_counterexample :
    runHandler (catchNotFound "Task not found or invalid task_id")
        (Except.error (ThrownError.clickup (requestError ⟨403, "Forbidden", ""⟩))) =
      toolResultError "No access to this resource" ∧
    runHandler (catchNotFound "Task not found or invalid task_id")
        (Except.error (ThrownError.clickup (requestError ⟨404, "Not Found", ""⟩))) =
      toolResultError "Task not found or invalid task_id" ∧
    toolResultError "No access to this resource" ≠
      toolResultError "Task not found or invalid task_id" := by
  refine ⟨?_, ?_, ?_⟩ <;> decide

/-- C5 (amended): on the single-item lookup, upstream 404 and 400 both
collapse to the identical generic "Task not found or invalid task_id" tool
error; upstream 403 surfaces the adapter's generic "No access to this
resource" message; neither message re-exposes the raw status code. -/
theorem C5_amended_400_404_collapse (e : ClickUpApiError) (st body : String)
    (h : e.statusCode = 404 ∨ e.statusCode = 400) :
    runHandler (catchNotFound "Task not found or invalid task_id")
        (Except.error (ThrownError.clickup e)) =
      toolResultError "Task not found or invalid task_id" ∧
    runHandler (catchNotFound "Task not found or invalid task_id")
        (Except.error (ThrownError.clickup (requestError ⟨403, st, body⟩))) =
      toolResultError "No access to this resource" ∧
    ¬ ContainsSub (toolResultError "Task not found or invalid task_id").text "404" ∧
    ¬ ContainsSub (toolResultError "No access to this resource").text "403" := by
  refine ⟨?_, ?_, by decide, by decide⟩
  · rcases h with h | h <;> simp [runHandler, catchNotFound, h]
  · simp [runHandler, catchNotFound, requestError]

theorem C5_amended_witness :
    runHandler (catchNotFound "Task not found or invalid task_id")
        (Except.error (ThrownError.clickup ⟨"m", 404, none⟩)) =
      toolResultError "Task not found or invalid task_id" ∧
    runHandler (catchNotFound "Task not found or invalid task_id")
        (Except.error (ThrownError.clickup (requestError ⟨403, "Forbidden", "body"⟩))) =
      toolResultError "No access to this resource" ∧
    ¬ ContainsSub (toolResultError "Task not found or invalid task_id").text "404" ∧
    ¬ ContainsSub (toolResultError "No access to this resource").text "403" :=
  C5_amended_400_404_collapse ⟨"m", 404, none⟩ "Forbidden" "body" (Or.inl rfl)

/-- C8: `createSubtask` issues the `createTask` write only after the parent
lookup succeeded and yielded a list id; a failed lookup or a parent without
list context stops before the write, and the returned typed error
identifies the failing step (INVALID_INPUT for validation, the propagated
lookup error for the read, NO_LIST for missing list context). -/
theorem C8_subtask_write_gated_on_lookup (p n : String) (d : Option String)
    (lookup : Except ClickUpApiError ParentTaskInfo)
    (hp : jsTrim p ≠ "") (hn : jsTrim n ≠ "") :
    (∀ e, lookup = Except.error e →
      createSubtask p n d lookup = SubtaskStep.lookupFailed e) ∧
    (∀ parent, lookup = Except.ok parent → rawListId parent = none →
      createSubtask p n d lookup = SubtaskStep.noListContext
        ⟨"Parent task has no list context (task_id=" ++ jsTrim p ++
          "). Cannot create subtask.", 400, some "NO_LIST"⟩) ∧
    (∀ parent lid, lookup = Except.ok parent → rawListId parent = some lid →
      createSubtask p n d lookup =
        SubtaskStep.writeIssued lid (jsTrim n) (jsTrim p) d) ∧
    (issuesWrite (createSubtask p n d lookup) = true →
      ∃ parent lid, lookup = Except.ok parent ∧ rawListId parent = some lid) ∧
    (∀ q m dd lk, jsTrim q = "" →
      createSubtask q m dd lk = SubtaskStep.invalidInput
        ⟨"parent_task_id is required and must be non-empty", 400,
          some "INVALID_INPUT"⟩) := by
  refine ⟨?_, ?_, ?_, ?_, ?_⟩
  · intro e he
    subst he
    simp [createSubtask, hp, hn]
  · intro parent hok hnil
    subst hok
    simp [createSubtask, hp, hn, hnil]
  · intro parent lid hok hlid
    subst hok
    simp [createSubtask, hp, hn, hlid]
  · intro hw
    cases lookup with
    | error e =>
      exfalso
      have : createSubtask p n d (Except.error e) = SubtaskStep.lookupFailed e := by
        simp [createSubtask, hp, hn]
      rw [this] at hw
      simp [issuesWrite] at hw
    | ok parent =>
      cases hlid : rawListId parent with
      | none =>
        exfalso
        have : createSubtask p n d (Except.ok parent) =
            SubtaskStep.noListContext
              ⟨"Parent task has no list context (task_id=" ++ jsTrim p ++
                "). Cannot create subtask.", 400, some "NO_LIST"⟩ := by
          simp [createSubtask, hp, hn, hlid]
        rw [this] at hw
        simp [issuesWrite] at hw
      | some lid => exact ⟨parent, lid, rfl, hlid⟩
  · intro q m dd lk hq
    simp [createSubtask, hq]

theorem C8_witness :
    createSubtask "86c6p1ach" "Sub" none
        (Except.error ⟨"ClickUp token invalid or expired", 401, none⟩) =
      SubtaskStep.lookupFailed ⟨"ClickUp token invalid or expired", 401, none⟩ :=
  (C8_subtask_write_gated_on_lookup "86c6p1ach" "Sub" none
      (Except.error ⟨"ClickUp token invalid or expired", 401, none⟩)
      (by decide) (by decide)).1
    ⟨"ClickUp token invalid or expired", 401, none⟩ rfl

theorem find?_of_isFirstMatch {α : Type} [DecidableEq α] (p : α → Bool)
    (l : List α) (a : α) (h : isFirstMatch p l a = true) :
    l.find? p = some a := by
  induction l with
  | nil => simp [isFirstMatch] at h
  | cons x xs ih =>
    unfold isFirstMatch at h
    by_cases hx : p x = true
    · rw [if_pos hx] at h
      have hxa : x = a := by simpa using h
      subst hxa
      exact List.find?_cons_of_pos _ hx
    · rw [if_neg hx] at h
      rw [List.find?_cons_of_neg _ hx]
      exact ih h

theorem mem_joinNames_infix (ns : List String) (s : String) (h : s ∈ ns) :
    s.data <:+: (joinNames ns).data := by
  induction ns with
  | nil => cases h
  | cons n rest ih =>
    cases rest with
    | nil =>
      have hs : s = n := by simpa using h
      subst hs
      have hj : joinNames [s] = s := by simp [joinNames]
      rw [hj]
    | cons m t =>
      rcases List.mem_cons.mp h with hs | hmem
      · subst hs
        refine ⟨[], (", " ++ joinNames (m :: t)).data, ?_⟩
        simp [joinNames, data_append, List.append_assoc]
      · have hi := ih hmem
        have h2 : (joinNames (m :: t)).data <:+: (joinNames (n :: m :: t)).data := by
          refine ⟨(n ++ ", ").data, [], ?_⟩
          simp [joinNames, data_append, List.append_assoc]
        exact hi.trans h2

theorem joinNames_eq_empty (ns : List String) (h : joinNames ns = "") :
    ∀ s ∈ ns, s = "" := by
  cases ns with
  | nil => intro s hs; cases hs
  | cons n rest =>
    cases rest with
    | nil =>
      intro s hs
      have hs' : s = n := by simpa using hs
      subst hs'
      have hj : joinNames [s] = s := by simp [joinNames]
      rw [hj] at h
      exact h
    | cons m t =>
      exfalso
      have hd : (joinNames (n :: m :: t)).data = ("" : String).data :=
        congrArg String.data h
      have hnil : n.data ++ (", ").data ++ (joinNames (m :: t)).data = [] := by
        simpa [joinNames, data_append, List.append_assoc] using hd
      have h2 : ((", ").data : List Char) = [',', ' '] := rfl
      rw [h2] at hnil
      simp at hnil

/-- C10: `get_clickup_tasks_by_list_name` resolves the target list by
comparing the trimmed, lowercased requested name for equality against the
lowercased entry names, over the entries in folderless-first order (folders
in upstream order), taking the first match; when no entry matches it
returns an error-flagged tool result that names the requested list and
contains every available list name, and issues no task fetch. -/
theorem C10_list_resolution (d : SpaceData) (listName : String) :
    getAllListsInSpace d = folderlessEntries d ++ folderEntries d ∧
    ((∀ l ∈ getAllListsInSpace d,
        listNameMatches (jsToLower (jsTrim listName)) l = false) →
      ∃ r, tasksByListName d listName = ByListNameStep.errorResult r ∧
        r.isError = true ∧
        ContainsSub r.text listName ∧
        ∀ l ∈ getAllListsInSpace d, ContainsSub r.text l.list_name) ∧
    (∀ a, isFirstMatch (listNameMatches (jsToLower (jsTrim listName)))
        (getAllListsInSpace d) a = true →
      tasksByListName d listName = ByListNameStep.fetchTasks a.list_id a.list_name) := by
  refine ⟨rfl, ?_, ?_⟩
  · intro hnone
    have hfind : (getAllListsInSpace d).find?
        (listNameMatches (jsToLower (jsTrim listName))) = none := by
      apply List.find?_eq_none.mpr
      intro x hx
      rw [hnone x hx]
      simp
    have hrun : tasksByListName d listName = ByListNameStep.errorResult
        (toolResultError ("List \"" ++ listName ++
          "\" not found in space. Available lists: " ++
          (if joinNames ((getAllListsInSpace d).map ListInSpace.list_name) = ""
            then "(none)"
            else joinNames ((getAllListsInSpace d).map ListInSpace.list_name)))) := by
      simp only [tasksByListName, hfind]
    refine ⟨_, hrun, rfl, ?_, ?_⟩
    · refine containsSub_intro _ _ ("Error: ".data ++ "List \"".data)
        (("\" not found in space. Available lists: ").data ++
          (if joinNames ((getAllListsInSpace d).map ListInSpace.list_name) = ""
            then "(none)"
            else joinNames ((getAllListsInSpace d).map ListInSpace.list_name)).data) ?_
      simp [toolResultError, data_append, List.append_assoc]
    · intro l hl
      have hmem : l.list_name ∈ (getAllListsInSpace d).map ListInSpace.list_name :=
        List.mem_map_of_mem _ hl
      by_cases hne : joinNames ((getAllListsInSpace d).map ListInSpace.list_name) = ""
      · have hz := joinNames_eq_empty _ hne _ hmem
        rw [hz]
        exact ⟨[], _, rfl⟩
      · have h1 : l.list_name.data <:+:
            (joinNames ((getAllListsInSpace d).map ListInSpace.list_name)).data :=
          mem_joinNames_infix _ _ hmem
        have h2 : (joinNames ((getAllListsInSpace d).map ListInSpace.list_name)).data <:+:
            (toolResultError ("List \"" ++ listName ++
              "\" not found in space. Available lists: " ++
              (if joinNames ((getAllListsInSpace d).map ListInSpace.list_name) = ""
                then "(none)"
                else joinNames ((getAllListsInSpace d).map ListInSpace.list_name)))).text.data := by
          refine ⟨("Error: " ++ ("List \"" ++ listName ++
            "\" not found in space. Available lists: ")).data, [], ?_⟩
          simp [toolResultError, data_append, List.append_assoc, hne]
        exact h1.trans h2
  · intro a ha
    have hfind := find?_of_isFirstMatch _ _ _ ha
    simp only [tasksByListName, hfind]

theorem C10_witness :
    (getAllListsInSpace sampleSpace =
        folderlessEntries sampleSpace ++ folderEntries sampleSpace) ∧
      tasksByListName sampleSpace " BETA " =
        ByListNameStep.fetchTasks "L2" "Beta" :=
  ⟨(C10_list_resolution sampleSpace " BETA ").1,
    (C10_list_resolution sampleSpace " BETA ").2.2
      ⟨"L2", "Beta", "F1", "Findings"⟩ (by decide)⟩

end ClickupMcp
